import Mathlib

/-!
Verification of the pymel repository's specification against its code.

Two source files are embedded here:
* `src/examples/setVertexColor.py` — the example script's `doIt` procedure,
  modelled as a pure per-vertex color computation plus a trace of the mesh
  operations the script performs.
* `src/__init__.py` — the module-level package initialization sequence
  (lines 991–1022), modelled as a list of statements run in order with the
  `assert _mayaInit()` statement as the only possible failure point.

The pymel object model (`Color`, mesh components, their methods) lives in
repository modules not present under `src/`, so those parts are modelled
from the spec's words, as marked in their doc comments. Rational numbers
stand in for Python floats; all concrete values appearing in the claims
(0.0, 0.5, 2.0, 4.0, 6.0) are exactly representable.
-/

namespace Pymel

/-- Modelled from the spec: the `Color` value of `pymel.core.datatypes`
(module not under `src/`); a color value with red, green and blue channels.
The spec's example script section speaks of building "a color value" per
vertex, so `Color` is modelled with value semantics. -/
structure Color where
  r : ℚ
  g : ℚ
  b : ℚ
  deriving DecidableEq, Repr

/-- Modelled from the spec: the `Color.black` constant used by the example
script as the fresh base color; black has every channel at zero. -/
def Color.black : Color := ⟨0, 0, 0⟩

/-- Modelled from the spec: one mesh vertex as seen by the example script.
`connectedEdgeLengths` is what `vtx.connectedEdges()` followed by
`edg.getLength()` on each edge yields: `none` if `connectedEdges` itself
raises, an inner `none` if `getLength` raises on that edge. `priorColor`
is what `vtx.getColor(0)` yields, `none` if it raises. The mesh component
classes are repository code not under `src/`. -/
structure Vertex where
  connectedEdgeLengths : Option (List (Option ℚ))
  priorColor : Option Color
  deriving DecidableEq, Repr

/-- Modelled from the spec: a mesh object as the example script consumes it,
reduced to its vertex enumeration (`obj.vtx` in order). -/
structure Mesh where
  vertices : List Vertex
  deriving DecidableEq, Repr

/-- The inner edge loop of `doIt` (src/examples/setVertexColor.py lines
16-22): walk the connected edges accumulating `totalLen` and `edgCnt`;
a `getLength` failure aborts the whole computation. -/
def sumLengths : List (Option ℚ) → Option (ℚ × Nat)
  | [] => some (0, 0)
  | l :: rest =>
    match l with
    | none => none
    | some len =>
      match sumLengths rest with
      | none => none
      | some (t, c) => some (t + len, c + 1)

/-- The per-vertex body of `doIt` (src/examples/setVertexColor.py lines
13-31): enumerate connected edges, average their lengths (the division by
`edgCnt` happens before `getColor` is called, and fails when `edgCnt = 0`),
read the prior color, start from `Color.black`, set blue to the average
only when the prior blue is ≤ 0, and always set red to the average.
`none` models an exception escaping the loop body. -/
def vertexColor (v : Vertex) : Option Color :=
  match v.connectedEdgeLengths with
  | none => none
  | some edgs =>
    match sumLengths edgs with
    | none => none
    | some (totalLen, edgCnt) =>
      if edgCnt = 0 then
        none
      else
        let avgLen : ℚ := totalLen / (edgCnt : ℚ)
        match v.priorColor with
        | none => none
        | some currColor =>
          let color := Color.black
          let color := if currColor.b ≤ 0 then { color with b := avgLen } else color
          some { color with r := avgLen }

/-- The vertex loop of `doIt` (src/examples/setVertexColor.py lines 10-31):
one color appended per vertex, in enumeration order; an exception at any
vertex aborts the whole loop. -/
def computeColors : List Vertex → Option (List Color)
  | [] => some []
  | v :: vs =>
    match vertexColor v with
    | none => none
    | some c =>
      match computeColors vs with
      | none => none
      | some cs => some (c :: cs)

/-- A vertex on which every host call made by the per-vertex body succeeds
and which has at least one connected edge: `connectedEdges` returns a
nonempty edge list, every `getLength` returns a value, and `getColor`
returns a value. This is the precondition under which the per-vertex
computation cannot raise. -/
def vertexDataComplete (v : Vertex) : Bool :=
  match v.connectedEdgeLengths with
  | none => false
  | some edgs => !edgs.isEmpty && edgs.all Option.isSome && v.priorColor.isSome

/-- The mesh-mutating operations `doIt` can perform, in the order the
script issues them. `print len(colors)` writes to stdout only and is not a
mesh operation. -/
inductive MeshOp where
  | createColorSet (name : String)
  | setColors (colors : List Color)
  | updateSurface
  | polyColorPerVertex (colorDisplayOption : Nat)
  deriving DecidableEq, Repr

/-- The whole of `doIt` (src/examples/setVertexColor.py lines 7-38):
`createColorSet('edgeLength')` first, then the vertex loop; on success the
batch `setColors`, `updateSurface` and `polyColorPerVertex(e=1,
colorDisplayOption=1)` follow in that order. The returned trace lists the
mesh operations actually performed; the boolean is `false` when an
exception escaped the vertex loop (in which case only the `createColorSet`
has happened). -/
def doIt (obj : Mesh) : List MeshOp × Bool :=
  match computeColors obj.vertices with
  | none => ([MeshOp.createColorSet "edgeLength"], false)
  | some colors =>
    ([MeshOp.createColorSet "edgeLength",
      MeshOp.setColors colors,
      MeshOp.updateSurface,
      MeshOp.polyColorPerVertex 1], true)

/-- The executable statements of the module-level initialization code of
`src/__init__.py` (lines 991-1022), in source order. Commented-out lines
are omitted as the source keeps them disabled. -/
inductive Stmt where
  /-- line 991: `from mayahook import mayaInit as _mayaInit` -/
  | importMayaInit
  /-- lines 992, 1002, 1005: Python 2 `print` of a progress message -/
  | printMsg (msg : String)
  /-- line 993: `assert _mayaInit()` -/
  | assertMayaInit
  /-- line 998: `import core.pmtypes.factories as factories` -/
  | importFactories
  /-- line 1001: `import api` -/
  | importApi
  /-- line 1004: `from core import *` -/
  | importCoreStar
  /-- line 1007: `from util.test import pymel_test` -/
  | importPymelTest
  /-- line 1012: `_module = __import__(__name__)` -/
  | importSelf
  /-- line 1015: `factories.installCallbacks(_module)` -/
  | installCallbacks
  /-- line 1022: `import maya.cmds as cmds` -/
  | importMayaCmds
  deriving DecidableEq, Repr

/-- The host-dependent facts the initialization sequence consults:
whether `mayaInit()` (the Host Bootstrap check) returns a truthy result,
and whether `from core import *` would itself bring a name `cmds` into the
package namespace (the `core` module is repository code not under `src/`;
the source's comment at lines 1017-1019 suggests it may). -/
structure HostEnv where
  mayaInitOk : Bool
  coreExportsCmds : Bool
  deriving DecidableEq, Repr

/-- Whether a statement completes without raising: only
`assert _mayaInit()` can fail, and it fails exactly when `mayaInit()`
returned a falsy result (Python `assert` raises `AssertionError` then). -/
def stmtOk (env : HostEnv) : Stmt → Bool
  | Stmt.assertMayaInit => env.mayaInitOk
  | _ => true

/-- Run a statement list in order. A raising statement ends execution: it
appears last in the trace and the flag is `false`; nothing after it runs
(a module body aborts at the first uncaught exception). -/
def runStmts (env : HostEnv) : List Stmt → List Stmt × Bool
  | [] => ([], true)
  | s :: rest =>
    if stmtOk env s then
      let (tr, ok) := runStmts env rest
      (s :: tr, ok)
    else
      ([s], false)

/-- The module body of `src/__init__.py` lines 991-1022, statement by
statement in source order. -/
def pymelModuleBody : List Stmt :=
  [Stmt.importMayaInit,
   Stmt.printMsg "imported mayahook",
   Stmt.assertMayaInit,
   Stmt.importFactories,
   Stmt.importApi,
   Stmt.printMsg "imported api",
   Stmt.importCoreStar,
   Stmt.printMsg "imported core",
   Stmt.importPymelTest,
   Stmt.importSelf,
   Stmt.installCallbacks,
   Stmt.importMayaCmds]

/-- Importing the pymel package: run its module body under the host. -/
def pymelInit (env : HostEnv) : List Stmt × Bool :=
  runStmts env pymelModuleBody

/-- What the package-namespace name `cmds` can be bound to. -/
inductive CmdsBinding where
  /-- no binding for `cmds` yet -/
  | unbound
  /-- the wrapped `pymel.mayahook.pmcmds` module a submodule may leak
  through `from core import *` (source comment, lines 1017-1019) -/
  | wrappedPmcmds
  /-- the host's unmodified raw command module `maya.cmds` -/
  | rawMayaCmds
  deriving DecidableEq, Repr

/-- The effect of one statement on the binding of `cmds`: the star-import
of `core` may rebind it to the wrapped module when `core` exports such a
name; `import maya.cmds as cmds` always rebinds it to the raw module. -/
def stmtCmdsEffect (env : HostEnv) : Stmt → Option CmdsBinding
  | Stmt.importCoreStar =>
    if env.coreExportsCmds then some CmdsBinding.wrappedPmcmds else none
  | Stmt.importMayaCmds => some CmdsBinding.rawMayaCmds
  | _ => none

/-- The binding of `cmds` after a trace of executed statements: the last
statement that binds the name wins. -/
def cmdsAfter (env : HostEnv) (tr : List Stmt) : CmdsBinding :=
  tr.foldl
    (fun acc s =>
      match stmtCmdsEffect env s with
      | some newBinding => newBinding
      | none => acc)
    CmdsBinding.unbound

/-! ## Helper lemmas -/

/-- The edge loop on a list of lengths that were all obtained successfully
sums the list and counts its elements. -/
theorem sumLengths_map_some (ls : List ℚ) :
    sumLengths (ls.map some) = some (ls.sum, ls.length) := by
  induction ls with
  | nil => simp [sumLengths]
  | cons a t ih => simp [sumLengths, ih, add_comm]

/-- Closed form of the per-vertex body on a vertex whose host calls all
succeed and whose edge list is nonempty: red is the mean edge length,
green is zero, and blue is the mean exactly when the prior blue is ≤ 0
and zero otherwise. -/
theorem vertexColor_eq (ls : List ℚ) (curr : Color) (hne : ls ≠ []) :
    vertexColor ⟨some (ls.map some), some curr⟩ =
      some ⟨ls.sum / (ls.length : ℚ), 0,
            if curr.b ≤ 0 then ls.sum / (ls.length : ℚ) else 0⟩ := by
  have hlen : ¬ (ls.length = 0) := by simpa using hne
  simp only [vertexColor, sumLengths_map_some, hlen, if_false, Color.black]
  split_ifs with hb <;> rfl

/-- The edge loop succeeds when every `getLength` call succeeds. -/
theorem sumLengths_all_isSome (edgs : List (Option ℚ)) (h : edgs.all Option.isSome = true) :
    ∃ t, sumLengths edgs = some (t, edgs.length) := by
  induction edgs with
  | nil => exact ⟨0, rfl⟩
  | cons l rest ih =>
    simp only [List.all_cons, Bool.and_eq_true] at h
    obtain ⟨len, rfl⟩ := Option.isSome_iff_exists.mp h.1
    obtain ⟨t, ht⟩ := ih h.2
    exact ⟨t + len, by simp [sumLengths, ht]⟩

/-- The per-vertex body cannot raise on a vertex with complete data. -/
theorem vertexColor_isSome (v : Vertex) (h : vertexDataComplete v = true) :
    (vertexColor v).isSome = true := by
  obtain ⟨ce, pc⟩ := v
  cases ce with
  | none => simp [vertexDataComplete] at h
  | some edgs =>
    simp only [vertexDataComplete, Bool.and_eq_true] at h
    obtain ⟨⟨hne, hall⟩, hpc⟩ := h
    obtain ⟨t, ht⟩ := sumLengths_all_isSome edgs hall
    obtain ⟨curr, rfl⟩ := Option.isSome_iff_exists.mp hpc
    have hlen : ¬ (edgs.length = 0) := by
      simpa [List.isEmpty_iff, List.length_eq_zero] using hne
    simp only [vertexColor, ht, hlen, if_false]
    split_ifs <;> simp

/-- The vertex loop cannot raise when every vertex has complete data. -/
theorem computeColors_isSome (vs : List Vertex) (h : vs.all vertexDataComplete = true) :
    (computeColors vs).isSome = true := by
  induction vs with
  | nil => rfl
  | cons v rest ih =>
    simp only [List.all_cons, Bool.and_eq_true] at h
    obtain ⟨c, hc⟩ := Option.isSome_iff_exists.mp (vertexColor_isSome v h.1)
    obtain ⟨cs, hcs⟩ := Option.isSome_iff_exists.mp (ih h.2)
    simp [computeColors, hc, hcs]

/-- A successful vertex loop produces one color per vertex, positionally:
the color list has the vertices' length and its i-th element is the
per-vertex result for the i-th vertex. -/
theorem computeColors_get? (vs : List Vertex) (cs : List Color)
    (h : computeColors vs = some cs) :
    cs.length = vs.length ∧
    ∀ i : Nat, (vs.get? i).bind vertexColor = cs.get? i := by
  induction vs generalizing cs with
  | nil =>
    simp only [computeColors, Option.some_inj] at h
    subst h
    exact ⟨rfl, fun i => by cases i <;> rfl⟩
  | cons v rest ih =>
    simp only [computeColors] at h
    cases hv : vertexColor v with
    | none => rw [hv] at h; exact absurd h (by simp)
    | some c =>
      rw [hv] at h
      cases hrest : computeColors rest with
      | none => rw [hrest] at h; exact absurd h (by simp)
      | some cs0 =>
        rw [hrest] at h
        simp only [Option.some_inj] at h
        subst h
        obtain ⟨hlen, hget⟩ := ih cs0 hrest
        refine ⟨by simp [hlen], fun i => ?_⟩
        cases i with
        | zero => simpa using hv
        | succ j => simpa using hget j

/-! ## Concrete evaluations shared by witnesses -/

/-- The per-vertex body on a one-edge vertex of length 4 with prior color
black yields red 4, green 0, blue 4. -/
theorem vertexColor_single_example :
    vertexColor ⟨some [some 4], some ⟨0, 0, 0⟩⟩ = some ⟨4, 0, 4⟩ := by
  norm_num [vertexColor, sumLengths, Color.black]

/-- The vertex loop on a one-vertex mesh with a single edge of length 4. -/
theorem computeColors_single_example :
    computeColors [⟨some [some 4], some ⟨0, 0, 0⟩⟩] = some [⟨4, 0, 4⟩] := by
  norm_num [computeColors, vertexColor, sumLengths, Color.black]

/-- The vertex loop on a two-vertex mesh: first vertex has one edge of
length 4 and prior blue 0, second has one edge of length 2 and prior
blue 5 (positive, so its output blue stays 0). -/
theorem computeColors_pair_example :
    computeColors
        [⟨some [some 4], some ⟨0, 0, 0⟩⟩, ⟨some [some 2], some ⟨0, 0, 5⟩⟩]
      = some [⟨4, 0, 4⟩, ⟨2, 0, 0⟩] := by
  norm_num [computeColors, vertexColor, sumLengths, Color.black]

/-! ## Claims -/

/-- C1 counterexample: on a vertex with connected edges of lengths 2, 4, 6
and a prior color of blue 0.5, `doIt`'s per-vertex body produces the color
(4, 0, 0): the written blue channel is 0, the blue of the fresh
`Color.black` base, not the prior positive value 0.5 — refuting the
claim that the written color keeps the prior blue value. -/
theorem C1_counterexample :
    vertexColor ⟨some [some 2, some 4, some 6], some ⟨0, 0, 1/2⟩⟩ = some ⟨4, 0, 0⟩ ∧
    (0 : ℚ) < 1/2 ∧ (0 : ℚ) ≠ 1/2 := by
  refine ⟨?_, by norm_num, by norm_num⟩
  norm_num [vertexColor, sumLengths, Color.black]

/-- C1 (amended): for every vertex whose host calls succeed and that has at
least one connected edge, the color produced is `Color.black` with red set
to the mean connected-edge length and blue set to the mean exactly when
the prior blue is ≤ 0; when the prior blue is positive, blue is left at
`Color.black`'s blue (0), not at the prior value. -/
theorem C1_blue_channel (v : Vertex) (ls : List ℚ) (curr : Color)
    (hE : v.connectedEdgeLengths = some (ls.map some))
    (hne : ls ≠ [])
    (hC : v.priorColor = some curr) :
    vertexColor v =
      some { Color.black with
             r := ls.sum / (ls.length : ℚ),
             b := if curr.b ≤ 0 then ls.sum / (ls.length : ℚ) else Color.black.b } := by
  have hv : v = ⟨some (ls.map some), some curr⟩ := by
    cases v
    simp_all
  rw [hv, vertexColor_eq ls curr hne]
  simp [Color.black]

/-- C1 witness: the amended claim at a vertex with one edge of length 4
and prior blue 1/2. -/
theorem C1_witness :
    (⟨some (([4] : List ℚ).map some), some ⟨0, 0, 1/2⟩⟩ : Vertex).connectedEdgeLengths
        = some (([4] : List ℚ).map some) ∧
    ([4] : List ℚ) ≠ [] ∧
    (⟨some (([4] : List ℚ).map some), some ⟨0, 0, 1/2⟩⟩ : Vertex).priorColor
        = some ⟨0, 0, 1/2⟩ ∧
    vertexColor ⟨some (([4] : List ℚ).map some), some ⟨0, 0, 1/2⟩⟩ =
      some { Color.black with
             r := ([4] : List ℚ).sum / (([4] : List ℚ).length : ℚ),
             b := if (⟨0, 0, 1/2⟩ : Color).b ≤ 0
                  then ([4] : List ℚ).sum / (([4] : List ℚ).length : ℚ)
                  else Color.black.b } :=
  ⟨rfl, by simp, rfl, C1_blue_channel _ [4] ⟨0, 0, 1/2⟩ rfl (by simp) rfl⟩

/-- C2: a vertex whose `connectedEdges` call returns an empty list makes
the per-vertex body fail (the unguarded division `totalLen / edgCnt` with
`edgCnt = 0` raises); and when every vertex has complete data with at
least one connected edge, the vertex loop is total. -/
theorem C2_division_guard :
    (∀ v : Vertex, v.connectedEdgeLengths = some [] → vertexColor v = none) ∧
    (∀ m : Mesh, m.vertices.all vertexDataComplete = true →
      (computeColors m.vertices).isSome = true) := by
  constructor
  · intro v hE
    have hv : v = ⟨some [], v.priorColor⟩ := by cases v; simp_all
    rw [hv]
    simp [vertexColor, sumLengths]
  · intro m hm
    exact computeColors_isSome m.vertices hm

/-- C2 witness: the division failure at a zero-edge vertex, and totality
on a one-vertex mesh whose vertex has one connected edge. -/
theorem C2_witness :
    (⟨some [], none⟩ : Vertex).connectedEdgeLengths = some [] ∧
    vertexColor ⟨some [], none⟩ = none ∧
    (⟨[⟨some [some 4], some ⟨0, 0, 0⟩⟩]⟩ : Mesh).vertices.all vertexDataComplete = true ∧
    (computeColors (⟨[⟨some [some 4], some ⟨0, 0, 0⟩⟩]⟩ : Mesh).vertices).isSome = true :=
  ⟨rfl, C2_division_guard.1 _ rfl, rfl,
   C2_division_guard.2 ⟨[⟨some [some 4], some ⟨0, 0, 0⟩⟩]⟩ rfl⟩

/-- C3: for every vertex whose host calls succeed and that has at least one
connected edge, the red channel of the produced color is the arithmetic
mean of the connected-edge lengths; in particular any vertex with edges of
lengths 2, 4, 6 gets red 4, whatever its prior color. -/
theorem C3_red_mean :
    (∀ (v : Vertex) (ls : List ℚ) (curr : Color),
      v.connectedEdgeLengths = some (ls.map some) → ls ≠ [] → v.priorColor = some curr →
      Option.map Color.r (vertexColor v) = some (ls.sum / (ls.length : ℚ))) ∧
    (∀ curr : Color,
      Option.map Color.r (vertexColor ⟨some [some 2, some 4, some 6], some curr⟩)
        = some 4) := by
  constructor
  · intro v ls curr hE hne hC
    have hv : v = ⟨some (ls.map some), some curr⟩ := by cases v; simp_all
    rw [hv, vertexColor_eq ls curr hne]
    rfl
  · intro curr
    have h : (⟨some [some 2, some 4, some 6], some curr⟩ : Vertex)
        = ⟨some (([2, 4, 6] : List ℚ).map some), some curr⟩ := rfl
    rw [h, vertexColor_eq [2, 4, 6] curr (by simp)]
    norm_num

/-- C3 witness: the mean formula at edges of lengths 2, 4, 6, and the
specific red value 4 at an arbitrary concrete prior color. -/
theorem C3_witness :
    (⟨some (([2, 4, 6] : List ℚ).map some), some Color.black⟩ : Vertex).connectedEdgeLengths
        = some (([2, 4, 6] : List ℚ).map some) ∧
    ([2, 4, 6] : List ℚ) ≠ [] ∧
    (⟨some (([2, 4, 6] : List ℚ).map some), some Color.black⟩ : Vertex).priorColor
        = some Color.black ∧
    Option.map Color.r (vertexColor ⟨some (([2, 4, 6] : List ℚ).map some), some Color.black⟩)
        = some (([2, 4, 6] : List ℚ).sum / (([2, 4, 6] : List ℚ).length : ℚ)) ∧
    Option.map Color.r (vertexColor ⟨some [some 2, some 4, some 6], some ⟨1, 1, 1⟩⟩)
        = some 4 :=
  ⟨rfl, by simp, rfl,
   C3_red_mean.1 _ [2, 4, 6] Color.black rfl (by simp) rfl,
   C3_red_mean.2 ⟨1, 1, 1⟩⟩

/-- C6: when the vertex loop completes, `doIt` performs exactly, in order:
`createColorSet('edgeLength')` (issued before any vertex is processed),
one batch `setColors` with the accumulated color list, `updateSurface`,
and `polyColorPerVertex` with `colorDisplayOption = 1`. -/
theorem C6_operation_order (m : Mesh) (cs : List Color)
    (h : computeColors m.vertices = some cs) :
    doIt m =
      ([MeshOp.createColorSet "edgeLength",
        MeshOp.setColors cs,
        MeshOp.updateSurface,
        MeshOp.polyColorPerVertex 1], true) := by
  simp [doIt, h]

/-- C6 witness: the operation sequence on a one-vertex mesh. -/
theorem C6_witness :
    computeColors (⟨[⟨some [some 4], some ⟨0, 0, 0⟩⟩]⟩ : Mesh).vertices
        = some [⟨4, 0, 4⟩] ∧
    doIt ⟨[⟨some [some 4], some ⟨0, 0, 0⟩⟩]⟩ =
      ([MeshOp.createColorSet "edgeLength",
        MeshOp.setColors [⟨4, 0, 4⟩],
        MeshOp.updateSurface,
        MeshOp.polyColorPerVertex 1], true) :=
  ⟨computeColors_single_example,
   C6_operation_order ⟨[⟨some [some 4], some ⟨0, 0, 0⟩⟩]⟩ [⟨4, 0, 4⟩]
     computeColors_single_example⟩

/-- C8: when the vertex loop fails at some vertex, the exception escapes
`doIt` and the only mesh operation performed is the `createColorSet`
call: no `setColors`, no `updateSurface`, no `polyColorPerVertex`. -/
theorem C8_no_writeback (m : Mesh) (h : computeColors m.vertices = none) :
    doIt m = ([MeshOp.createColorSet "edgeLength"], false) ∧
    (∀ cs : List Color, MeshOp.setColors cs ∉ (doIt m).1) ∧
    MeshOp.updateSurface ∉ (doIt m).1 ∧
    (∀ o : Nat, MeshOp.polyColorPerVertex o ∉ (doIt m).1) := by
  have hd : doIt m = ([MeshOp.createColorSet "edgeLength"], false) := by
    simp [doIt, h]
  refine ⟨hd, ?_, ?_, ?_⟩ <;> simp [hd]

/-- C8 witness: a mesh whose single vertex raises on `connectedEdges`. -/
theorem C8_witness :
    computeColors (⟨[⟨none, none⟩]⟩ : Mesh).vertices = none ∧
    doIt ⟨[⟨none, none⟩]⟩ = ([MeshOp.createColorSet "edgeLength"], false) ∧
    MeshOp.setColors [] ∉ (doIt (⟨[⟨none, none⟩]⟩ : Mesh)).1 ∧
    MeshOp.updateSurface ∉ (doIt (⟨[⟨none, none⟩]⟩ : Mesh)).1 ∧
    MeshOp.polyColorPerVertex 1 ∉ (doIt (⟨[⟨none, none⟩]⟩ : Mesh)).1 :=
  ⟨rfl,
   (C8_no_writeback ⟨[⟨none, none⟩]⟩ rfl).1,
   (C8_no_writeback ⟨[⟨none, none⟩]⟩ rfl).2.1 [],
   (C8_no_writeback ⟨[⟨none, none⟩]⟩ rfl).2.2.1,
   (C8_no_writeback ⟨[⟨none, none⟩]⟩ rfl).2.2.2 1⟩

/-- C9: when the vertex loop completes, the list handed to `setColors` has
exactly one color per vertex, positionally: its length is the vertex
count and its i-th element is the per-vertex result for the i-th vertex
in enumeration order. -/
theorem C9_positional_colors (m : Mesh) (cs : List Color)
    (h : computeColors m.vertices = some cs) :
    cs.length = m.vertices.length ∧
    ∀ i : Nat, (m.vertices.get? i).bind vertexColor = cs.get? i :=
  computeColors_get? m.vertices cs h

/-- C9 witness: the positional correspondence on a two-vertex mesh, checked
at indices 0 and 1. -/
theorem C9_witness :
    computeColors
        (⟨[⟨some [some 4], some ⟨0, 0, 0⟩⟩, ⟨some [some 2], some ⟨0, 0, 5⟩⟩]⟩ : Mesh).vertices
      = some [⟨4, 0, 4⟩, ⟨2, 0, 0⟩] ∧
    ([⟨4, 0, 4⟩, ⟨2, 0, 0⟩] : List Color).length
      = (⟨[⟨some [some 4], some ⟨0, 0, 0⟩⟩, ⟨some [some 2], some ⟨0, 0, 5⟩⟩]⟩ : Mesh).vertices.length ∧
    ((⟨[⟨some [some 4], some ⟨0, 0, 0⟩⟩, ⟨some [some 2], some ⟨0, 0, 5⟩⟩]⟩ : Mesh).vertices.get? 0).bind vertexColor
      = ([⟨4, 0, 4⟩, ⟨2, 0, 0⟩] : List Color).get? 0 ∧
    ((⟨[⟨some [some 4], some ⟨0, 0, 0⟩⟩, ⟨some [some 2], some ⟨0, 0, 5⟩⟩]⟩ : Mesh).vertices.get? 1).bind vertexColor
      = ([⟨4, 0, 4⟩, ⟨2, 0, 0⟩] : List Color).get? 1 :=
  ⟨computeColors_pair_example,
   (C9_positional_colors _ _ computeColors_pair_example).1,
   (C9_positional_colors _ _ computeColors_pair_example).2 0,
   (C9_positional_colors _ _ computeColors_pair_example).2 1⟩

/-- C10: every color the per-vertex body produces is `Color.black` with
only its red channel (and in one branch its blue channel) replaced; its
green channel is `Color.black`'s green, and the result depends on the
prior color only through the blue value consulted in the comparison:
replacing the prior color by any color with the same blue leaves the
produced color unchanged. -/
theorem C10_fresh_from_black (v : Vertex) (c : Color) (h : vertexColor v = some c) :
    c.g = Color.black.g ∧
    (∃ avg : ℚ,
      c = { Color.black with r := avg, b := avg } ∨ c = { Color.black with r := avg }) ∧
    (∀ curr curr2 : Color, v.priorColor = some curr → curr2.b = curr.b →
      vertexColor { v with priorColor := some curr2 } = some c) := by
  obtain ⟨ce, pc⟩ := v
  cases ce with
  | none => simp [vertexColor] at h
  | some edgs =>
    cases hs : sumLengths edgs with
    | none => simp [vertexColor, hs] at h
    | some p =>
      obtain ⟨t, n⟩ := p
      by_cases hn : n = 0
      · simp [vertexColor, hs, hn] at h
      · cases pc with
        | none => simp [vertexColor, hs, hn] at h
        | some curr0 =>
          simp only [vertexColor, hs, hn, if_false] at h
          by_cases hb : curr0.b ≤ 0
          · rw [if_pos hb] at h
            simp only [Option.some_inj] at h
            subst h
            refine ⟨rfl, ⟨t / (n : ℚ), Or.inl (by simp [Color.black])⟩, ?_⟩
            intro curr curr2 hpc hb2
            simp only [Option.some_inj] at hpc
            subst hpc
            simp only [vertexColor, hs, hn, if_false]
            rw [if_pos (hb2 ▸ hb)]
          · rw [if_neg hb] at h
            simp only [Option.some_inj] at h
            subst h
            refine ⟨rfl, ⟨t / (n : ℚ), Or.inr (by simp [Color.black])⟩, ?_⟩
            intro curr curr2 hpc hb2
            simp only [Option.some_inj] at hpc
            subst hpc
            simp only [vertexColor, hs, hn, if_false]
            rw [if_neg (hb2 ▸ hb)]

/-- C10 witness: on a one-edge vertex with prior color black, the produced
color (4, 0, 4) has green 0 and is black with red and blue replaced;
changing the prior color's red and green (keeping blue 0) leaves the
produced color unchanged. -/
theorem C10_witness :
    vertexColor ⟨some [some 4], some ⟨0, 0, 0⟩⟩ = some ⟨4, 0, 4⟩ ∧
    (⟨4, 0, 4⟩ : Color).g = Color.black.g ∧
    (∃ avg : ℚ,
      (⟨4, 0, 4⟩ : Color) = { Color.black with r := avg, b := avg } ∨
      (⟨4, 0, 4⟩ : Color) = { Color.black with r := avg }) ∧
    vertexColor { (⟨some [some 4], some ⟨0, 0, 0⟩⟩ : Vertex) with priorColor := some ⟨1, 2, 0⟩ }
      = some ⟨4, 0, 4⟩ :=
  ⟨vertexColor_single_example,
   (C10_fresh_from_black _ _ vertexColor_single_example).1,
   (C10_fresh_from_black _ _ vertexColor_single_example).2.1,
   (C10_fresh_from_black _ _ vertexColor_single_example).2.2 ⟨0, 0, 0⟩ ⟨1, 2, 0⟩ rfl rfl⟩

/-- C4: when `mayaInit()` returns a falsy result, module initialization
stops at the failing `assert` — the executed trace is exactly the mayahook
import, the progress print, and the raising assert — and none of the
downstream steps (factory import, api import, core re-export, callback
registration) runs, whatever `core` would have exported. -/
theorem C4_bootstrap_failure_aborts :
    pymelInit ⟨false, false⟩ =
      ([Stmt.importMayaInit, Stmt.printMsg "imported mayahook", Stmt.assertMayaInit], false) ∧
    pymelInit ⟨false, true⟩ =
      ([Stmt.importMayaInit, Stmt.printMsg "imported mayahook", Stmt.assertMayaInit], false) ∧
    Stmt.importFactories ∉ (pymelInit ⟨false, false⟩).1 ∧
    Stmt.importApi ∉ (pymelInit ⟨false, false⟩).1 ∧
    Stmt.importCoreStar ∉ (pymelInit ⟨false, false⟩).1 ∧
    Stmt.installCallbacks ∉ (pymelInit ⟨false, false⟩).1 ∧
    Stmt.importFactories ∉ (pymelInit ⟨false, true⟩).1 ∧
    Stmt.importApi ∉ (pymelInit ⟨false, true⟩).1 ∧
    Stmt.importCoreStar ∉ (pymelInit ⟨false, true⟩).1 ∧
    Stmt.installCallbacks ∉ (pymelInit ⟨false, true⟩).1 := by
  decide

/-- C5: when the bootstrap assert passes, the whole module body runs and
its statements occur in the spec's order: the Host Bootstrap check, then
the factory import, then the api import, then the `from core import *`
re-export, and only then the `factories.installCallbacks(_module)`
registration against the assembled module. -/
theorem C5_startup_order :
    pymelInit ⟨true, false⟩ = (pymelModuleBody, true) ∧
    pymelInit ⟨true, true⟩ = (pymelModuleBody, true) ∧
    Stmt.assertMayaInit ∈ pymelModuleBody ∧
    Stmt.importFactories ∈ pymelModuleBody ∧
    Stmt.importApi ∈ pymelModuleBody ∧
    Stmt.importCoreStar ∈ pymelModuleBody ∧
    Stmt.installCallbacks ∈ pymelModuleBody ∧
    pymelModuleBody.indexOf Stmt.assertMayaInit < pymelModuleBody.indexOf Stmt.importFactories ∧
    pymelModuleBody.indexOf Stmt.importFactories < pymelModuleBody.indexOf Stmt.importApi ∧
    pymelModuleBody.indexOf Stmt.importApi < pymelModuleBody.indexOf Stmt.importCoreStar ∧
    pymelModuleBody.indexOf Stmt.importCoreStar < pymelModuleBody.indexOf Stmt.installCallbacks := by
  decide

/-- C7: after a successful initialization, the package-namespace name
`cmds` is bound to the host's unmodified raw command module `maya.cmds`
(the trailing `import maya.cmds as cmds` is the last statement binding the
name), whether or not `from core import *` had brought a wrapped `cmds`
into the namespace first. -/
theorem C7_raw_cmds :
    cmdsAfter ⟨true, false⟩ (pymelInit ⟨true, false⟩).1 = CmdsBinding.rawMayaCmds ∧
    cmdsAfter ⟨true, true⟩ (pymelInit ⟨true, true⟩).1 = CmdsBinding.rawMayaCmds := by
  decide

end Pymel
